import Mathlib

/-!
Verification of the tornado-blog application (src/blog.py) against its
natural-language specification.  The Python handlers are shallowly embedded
as pure Lean functions over an explicit blog state (datastore + memcache),
with the external collaborators (datastore query engine, memcache service,
identity provider, outbound urlfetch) modelled at their API contract.
-/

set_option maxRecDepth 4096

/-! ### Characters and the slug pipeline (BaseHandler.slugify) -/

/-- Python 2 byte-string regex class `\w`: ASCII letters, digits, underscore. -/
def isWordChar (c : Char) : Bool :=
  c.isAlpha || c.isDigit || c = '_'

/-- Lowercase hexadecimal digit, as produced by `uuid.uuid4().hex`. -/
def isLowerHexDigit (c : Char) : Bool :=
  c.isDigit || ('a' ≤ c && c ≤ 'f')

/-- A 2-character lowercase-hex string, the shape of `uuid.uuid4().hex[:2]`. -/
def isHexPair (x : String) : Bool :=
  x.data.length == 2 && x.data.all isLowerHexDigit

/-- Embeds `re.sub(r"[^\w]+", " ", s)`: each maximal run of non-word
characters is replaced by a single space.  The flag records whether the
previous character belonged to such a run. -/
def collapseNonWordAux : Bool → List Char → List Char
  | _, [] => []
  | inRun, c :: rest =>
    if isWordChar c then c :: collapseNonWordAux false rest
    else if inRun then collapseNonWordAux true rest
    else ' ' :: collapseNonWordAux true rest

def collapseNonWord (l : List Char) : List Char :=
  collapseNonWordAux false l

/-- Splitting a character list on a separator character, keeping empty
pieces (the behaviour of Python `str.split(sep)`). -/
def splitOnChar (sep : Char) : List Char → List (List Char)
  | [] => [[]]
  | c :: rest =>
    match splitOnChar sep rest with
    | [] => [[c]]
    | w :: ws => if c = sep then [] :: w :: ws else (c :: w) :: ws

/-- Python `s.strip().split()` after the collapse step: split on the space
character and drop empty words. -/
def splitWords (l : List Char) : List (List Char) :=
  (splitOnChar ' ' l).filter (fun w => w ≠ [])

/-- Embeds `BaseHandler.slugify` on the character-list level:
`unicodedata.normalize("NFKD", v).encode("ascii", "ignore")` (NFKD is the
identity on ASCII; non-ASCII codepoints are dropped — the accent
decomposition table of the external unicodedata library is not modelled),
then the non-word collapse, `.lower()`, `.strip().split()` and the hyphen
join. -/
def slugifyChars (cs : List Char) : List Char :=
  let ascii := cs.filter (fun c => c.toNat ≤ 127)
  let collapsed := collapseNonWord ascii
  let lowered := collapsed.map Char.toLower
  List.intercalate ['-'] (splitWords lowered)

def slugify (value : String) : String :=
  String.mk (slugifyChars value.data)

/-- The slug candidate computed by `ComposeHandler.post` before the
uniqueness loop: `slugify(title)`, replaced by the literal token
`"entry"` when empty. -/
def composeSlugCandidate (title : String) : String :=
  if slugify title = "" then "entry" else slugify title


/-! ### Data model (class Entry) -/

/-- The `Entry` datastore model: author (identity reference, kept as the
display name), title, slug, body, published and updated timestamps
(`auto_now_add` / `auto_now`, modelled as abstract clock values), tag list
and the hidden flag (default `False`). -/
structure Entry where
  author : String
  title : String
  slug : String
  body : String
  published : Nat
  updated : Nat
  tags : List String
  hidden : Bool
deriving DecidableEq, Repr

/-- The datastore: entities keyed by their numeric datastore key. -/
abbrev Store := List (Nat × Entry)

/-- `Entry.get` on a well-formed key: the entity with that key, or
nothing when the key resolves to no entity. -/
def lookupEntry : Store → Nat → Option Entry
  | [], _ => none
  | p :: rest, k => if p.1 = k then some p.2 else lookupEntry rest k

/-- `entry.put()` on an existing entity: overwrite the record stored
under the entity key. -/
def updateStore : Store → Nat → Entry → Store
  | [], _, _ => []
  | p :: rest, k, e => if p.1 = k then (k, e) :: rest else p :: updateStore rest k e

/-- `entry.delete()`: remove the record stored under the entity key. -/
def removeEntry (s : Store) (k : Nat) : Store :=
  s.filter (fun p => p.1 ≠ k)

/-- `db.Query(Entry).filter("slug = ", s).get()` viewed as a Boolean:
does some stored entity carry this slug? -/
def slugTaken : Store → String → Bool
  | [], _ => false
  | p :: rest, s => if p.2.slug = s then true else slugTaken rest s

/-- `db.Query(Entry).filter("slug =", s).get()`: first stored entity with
the given slug, used by `CatchAllHandler`. -/
def findBySlug (store : Store) (slug : String) : Option Entry :=
  (store.map Prod.snd).find? (fun e => e.slug == slug)

/-- The key argument of the admin handlers: `Entry.get` raises
`db.BadKeyError` on a malformed key string, and otherwise resolves the
encoded key to a numeric datastore key. -/
inductive KeyArg where
  | malformed
  | valid (k : Nat)
deriving DecidableEq, Repr

/-- The externally observable outcome of a handler: a redirect, an HTTP
error raised via `tornado.web.HTTPError`, a rendered template, or an
uncaught Python exception surfacing as a generic server error. -/
inductive Response where
  | redirect (loc : String)
  | httpError (code : Nat)
  | page (template : String)
  | serverError
deriving DecidableEq, Repr

/-! ### Memcache model -/

/-- A cached home page: the entry list and the forward cursor, the tuple
stored by `HomeHandler.get`. -/
abbrev CachedPage := List Entry × Option String

abbrev Cache := List (String × CachedPage)

def mget : Cache → String → Option CachedPage
  | [], _ => none
  | p :: rest, k => if p.1 = k then some p.2 else mget rest k

/-- `memcache.add`: stores the value only when the key is absent. -/
def madd (c : Cache) (k : String) (v : CachedPage) : Cache :=
  match mget c k with
  | some _ => c
  | none => (k, v) :: c

/-- `memcache.delete`: removes the key. -/
def mdelete : Cache → String → Cache
  | [], _ => []
  | p :: rest, k => if p.1 = k then mdelete rest k else p :: mdelete rest k

def defaultNumHome : Nat := 5

def defaultNumArchive : Nat := 10

/-- The cache key format string of `HomeHandler.get`, with Python
rendering the `None` cursor as the text `None`. -/
def homeCacheKey (cursorArg : Option String) (limit : Nat) : String :=
  "home_entries:" ++ (match cursorArg with | none => "None" | some c => c) ++ ":" ++ toString limit

/-- The one cache key that is ever explicitly invalidated: the canonical
first page, `home_entries:None:5`. -/
def canonicalHomeKey : String :=
  homeCacheKey none defaultNumHome

/-- The global blog state threaded through the handlers: the datastore,
the next fresh datastore key, and the memcache contents. -/
structure BlogState where
  store : Store
  nextKey : Nat
  cache : Cache
deriving DecidableEq, Repr


/-! ### Slug uniqueness loop (ComposeHandler.post, create path) -/

/-- The `while db.Query(Entry).filter("slug = ", slug).get():` loop.  Each
iteration rebuilds the slug as `original + "-" + uuid.uuid4().hex[:2]`;
the random draws are supplied as an explicit suffix stream, and a `none`
result marks the (probability-zero in the source, where the stream is
unbounded) exhaustion of the supplied stream. -/
def uniqueSlugLoop (store : Store) (original : String) : String → List String → Option String
  | current, [] => if slugTaken store current then none else some current
  | current, sfx :: rest =>
    if slugTaken store current then uniqueSlugLoop store original (original ++ "-" ++ sfx) rest
    else some current

def uniqueSlug (store : Store) (candidate : String) (suffixes : List String) : Option String :=
  uniqueSlugLoop store candidate candidate suffixes

/-! ### Tag parsing (ComposeHandler.post) -/

/-- `set([slugify(tag) for tag in tags_arg.split(",")])` followed by the
filter dropping empty tags.  The Python set is determinised as `dedup`. -/
def parseTags (tagsArg : String) : List String :=
  (((splitOnChar ',' tagsArg.data).map (fun w => String.mk (slugifyChars w))).dedup).filter
    (fun t => t ≠ "")


/-! ### Notification ping (BaseHandler.ping) -/

/-- The four fixed outbound endpoints of `BaseHandler.ping`, in call
order (query arguments and POST payload elided: they are metadata built
from settings and do not affect control flow). -/
def pingTargets : List String :=
  ["http://blogsearch.google.com/ping",
   "http://friendfeed.com/api/public-sup-ping",
   "http://www.feedburner.com/fb/a/pingSubmit",
   "http://pubsubhubbub.appspot.com/"]

/-- `BaseHandler.ping`: attempt each fetch in order; every call sits in
its own `try/except: pass`, so the outcome oracle (`true` = fetch
succeeded, `false` = raised) is recorded but never branches. -/
def ping (fetchOk : Nat → Bool) : List (String × Bool) :=
  pingTargets.enum.map (fun p => (p.2, fetchOk p.1))

/-! ### ComposeHandler.post -/

/-- Result of a compose POST: the post-state, the HTTP outcome, and the
list of ping fetches attempted (with their outcomes). -/
structure ComposeResult where
  state : BlogState
  response : Response
  pings : List (String × Bool)
deriving DecidableEq, Repr

/-- Embeds `ComposeHandler.post`.  With a key: `db.BadKeyError` is caught
and answered by a redirect to `/`; a key resolving to no entity makes
`entry.body = ...` raise on `None` (server error); otherwise body, title,
tags and hidden are overwritten and the entity is put (refreshing
`updated`).  Without a key: slugify the title, fall back to `"entry"`,
run the uniqueness loop, then insert the new entity under a fresh key.
Both successful paths delete the canonical home cache key; the ping runs
exactly when no key was given and the entry is not hidden. -/
def composePost (st : BlogState) (author : String) (key : Option KeyArg)
    (titleArg bodyArg tagsArg : String) (hiddenArg : Bool)
    (suffixes : List String) (fetchOk : Nat → Bool) (now : Nat) : ComposeResult :=
  match key with
  | some KeyArg.malformed =>
    { state := st, response := Response.redirect "/", pings := [] }
  | some (KeyArg.valid k) =>
    match lookupEntry st.store k with
    | none => { state := st, response := Response.serverError, pings := [] }
    | some e =>
      let e2 := { e with body := bodyArg, title := titleArg,
                         tags := parseTags tagsArg, hidden := hiddenArg, updated := now }
      { state := { st with store := updateStore st.store k e2,
                           cache := mdelete st.cache canonicalHomeKey },
        response := Response.redirect ("/" ++ e2.slug),
        pings := [] }
  | none =>
    match uniqueSlug st.store (composeSlugCandidate titleArg) suffixes with
    | none => { state := st, response := Response.serverError, pings := [] }
    | some slug =>
      let e : Entry :=
        { author := author, title := titleArg, slug := slug, body := bodyArg,
          published := now, updated := now, tags := parseTags tagsArg, hidden := hiddenArg }
      { state := { store := st.store ++ [(st.nextKey, e)], nextKey := st.nextKey + 1,
                   cache := mdelete st.cache canonicalHomeKey },
        response := Response.redirect ("/" ++ slug),
        pings := if hiddenArg then [] else ping fetchOk }

/-! ### HideHandler.post and DeleteHandler.post -/

/-- Embeds `HideHandler.post`: 404 on `db.BadKeyError`, server error when
the key resolves to no entity (`None.hidden = ...`), otherwise set
`hidden = not bool(unhide)` and put.  No cache key is touched. -/
def hidePost (st : BlogState) (key : KeyArg) (unhideArg : Bool) (now : Nat) :
    BlogState × Response :=
  match key with
  | KeyArg.malformed => (st, Response.httpError 404)
  | KeyArg.valid k =>
    match lookupEntry st.store k with
    | none => (st, Response.serverError)
    | some e =>
      let e2 := { e with hidden := !unhideArg, updated := now }
      ({ st with store := updateStore st.store k e2 }, Response.redirect "/")

/-- Embeds `DeleteHandler.post`: 404 on `db.BadKeyError`, server error on
an unresolvable key, otherwise delete the entity and redirect home. -/
def deletePost (st : BlogState) (key : KeyArg) : BlogState × Response :=
  match key with
  | KeyArg.malformed => (st, Response.httpError 404)
  | KeyArg.valid k =>
    match lookupEntry st.store k with
    | none => (st, Response.serverError)
    | some _ => ({ st with store := removeEntry st.store k }, Response.redirect "/")

/-! ### Listing queries (`filter("hidden =", False).order("-published")`) -/

/-- Published-descending comparison used by every listing query. -/
def pubGE (a b : Entry) : Prop :=
  b.published ≤ a.published

instance : DecidableRel pubGE :=
  fun a b => inferInstanceAs (Decidable (b.published ≤ a.published))

instance : IsTotal Entry pubGE :=
  ⟨fun a b => Or.symm (Nat.le_total a.published b.published)⟩

instance : IsTrans Entry pubGE :=
  ⟨fun _ _ _ hab hbc => Nat.le_trans hbc hab⟩

/-- The entities passing `filter("hidden =", False)`. -/
def visibleEntries (store : Store) : List Entry :=
  (store.map Prod.snd).filter (fun e => !e.hidden)

/-- The datastore result of
`db.Query(Entry).filter("hidden =", False).order("-published")`:
the visible entities in published-descending order.  The external query
engine is modelled as a stable sort of the stored entities. -/
def queryVisibleSorted (store : Store) : List Entry :=
  List.insertionSort pubGE (visibleEntries store)

/-- `q.fetch(limit=limit)` after `q.with_cursor`: a datastore cursor is
an opaque token marking a position in the ordering, modelled as an
offset into the sorted result. -/
def fetchFrom (store : Store) (offset limit : Nat) : List Entry :=
  ((queryVisibleSorted store).drop offset).take limit

/-- `TagHandler.get`: visible entities whose tag list contains the tag,
published-descending, no limit (the render call forces the full query). -/
def listByTag (store : Store) (tag : String) : List Entry :=
  List.insertionSort pubGE
    ((store.map Prod.snd).filter (fun e => !e.hidden && e.tags.contains tag))

/-! ### Cursor tokens -/

/-- Decoding of the opaque datastore cursor token, modelled as a decimal
offset; `q.with_cursor` raises `db.BadRequestError` exactly when the
token fails to decode, the case both listing handlers catch. -/
def parseCursor (s : String) : Option Nat :=
  if s.data ≠ [] && s.data.all (fun c => c.isDigit) then
    some (s.data.foldl (fun n c => n * 10 + (c.toNat - 48)) 0)
  else none

/-- The offset actually applied by a handler: an absent cursor or a
token rejected by `with_cursor` leaves the query at the beginning. -/
def appliedOffset (cursorArg : Option String) : Nat :=
  match cursorArg with
  | none => 0
  | some c =>
    match parseCursor c with
    | some o => o
    | none => 0

/-- `q.cursor()` after a fetch, exposed when the page is full
(`len(entries) == limit`), else `None`. -/
def cursorAfter (offset : Nat) (entries : List Entry) (limit : Nat) : Option String :=
  if entries.length = limit then some (toString (offset + entries.length)) else none

/-! ### ArchiveHandler.get and HomeHandler.get -/

/-- Embeds `ArchiveHandler.get` (no cache): apply the cursor if it
decodes, fetch `num_archive` entries, expose the forward cursor. -/
def archiveGet (store : Store) (cursorArg : Option String) : List Entry × Option String :=
  let offset := appliedOffset cursorArg
  let entries := fetchFrom store offset defaultNumArchive
  (entries, cursorAfter offset entries defaultNumArchive)

/-- Result of a home-page GET: post-state (the cache may gain a page),
entries and forward cursor. -/
structure HomeResult where
  state : BlogState
  entries : List Entry
  nextCursor : Option String
deriving DecidableEq, Repr

/-- Embeds `HomeHandler.get`: the cache key is built from the raw cursor
argument before validation; on a hit the cached pair is served, on a
miss the query runs (an undecodable cursor resetting to the start) and
the pair is stored with `memcache.add`. -/
def homeGet (st : BlogState) (cursorArg : Option String) : HomeResult :=
  let key := homeCacheKey cursorArg defaultNumHome
  match mget st.cache key with
  | some page => { state := st, entries := page.1, nextCursor := page.2 }
  | none =>
    let offset := appliedOffset cursorArg
    let entries := fetchFrom st.store offset defaultNumHome
    let nc := cursorAfter offset entries defaultNumHome
    { state := { st with cache := madd st.cache key (entries, nc) },
      entries := entries, nextCursor := nc }

/-! ### OldEntryHandler and CatchAllHandler -/

/-- Embeds `OldEntryHandler.get`: unconditionally redirect `/e/<slug>`
to `/<slug>`. -/
def oldEntryGet (slug : String) : Response :=
  Response.redirect ("/" ++ slug)

/-- Embeds `CatchAllHandler`: strip the leading slash from the request
path, look the slug up when non-empty, render the entry page on a match
and a 404 page (status 404) otherwise. -/
def catchAllGet (store : Store) (path : String) : Response :=
  let slug := String.mk (path.data.drop 1)
  match (if slug = "" then none else findBySlug store slug) with
  | some _ => Response.page "entry.html"
  | none => Response.httpError 404

/-! ### The administrator decorator -/

inductive Method where
  | GET
  | POST
deriving DecidableEq, Repr

inductive AuthResult where
  | redirectLogin (url : String)
  | forbidden
  | allowed
deriving DecidableEq, Repr

/-- `users.create_login_url(uri)` of the external identity provider,
modelled as the development login endpoint with a continue parameter. -/
def createLoginUrl (uri : String) : String :=
  "/_ah/login?continue=" ++ uri

/-- Embeds the `administrator` decorator: no current user on a GET gives
a login redirect, no current user otherwise a 403, a non-admin user a
403, and only an authenticated administrator reaches the method. -/
def administrator (user : Option String) (isAdmin : Bool) (method : Method)
    (uri : String) : AuthResult :=
  match user with
  | none =>
    match method with
    | Method.GET => AuthResult.redirectLogin (createLoginUrl uri)
    | Method.POST => AuthResult.forbidden
  | some _ => if !isAdmin then AuthResult.forbidden else AuthResult.allowed

/-- A gated handler method: the decorator outcome either short-circuits
the request (redirect or 403, state untouched) or runs the wrapped
body. -/
def runGated (user : Option String) (isAdmin : Bool) (method : Method) (uri : String)
    (st : BlogState) (handlerBody : Unit → BlogState × Response) : BlogState × Response :=
  match administrator user isAdmin method uri with
  | AuthResult.redirectLogin url => (st, Response.redirect url)
  | AuthResult.forbidden => (st, Response.httpError 403)
  | AuthResult.allowed => handlerBody ()

/-! ### BaseHandler.render -/

/-- One entry of the JSON feed body built by `BaseHandler.render`. -/
structure JsonEntry where
  title : String
  slug : String
  body : String
  author : String
  published : Nat
  updated : Nat
  tags : List String
  link : String
deriving DecidableEq, Repr

def entryToJson (host : String) (e : Entry) : JsonEntry :=
  { title := e.title, slug := e.slug, body := e.body, author := e.author,
    published := e.published, updated := e.updated, tags := e.tags,
    link := "http://" ++ host ++ "/" ++ e.slug }

structure JsonPayload where
  entries : List JsonEntry
  cursor : Option String
deriving DecidableEq, Repr

/-- The observable outcome of `BaseHandler.render` for the listing
pages: response content type, whether the X-SUP-ID header was set, which
template (if any) was rendered, and the JSON body (if any) written. -/
structure RenderResult where
  contentType : String
  supHeader : Bool
  template : Option String
  jsonBody : Option JsonPayload
deriving DecidableEq, Repr

/-- The framework default content type. -/
def defaultContentType : String :=
  "text/html; charset=UTF-8"

/-- Embeds `BaseHandler.render` for the calls that pass an entry list
and a cursor keyword (home and archive): the Atom branch fires only for
a non-empty forced entry list, the JSON branch writes the serialized
entries and returns before any template rendering. -/
def render (templateName : String) (formatArg : Option String) (host : String)
    (entries : List Entry) (cursorVal : Option String) : RenderResult :=
  let atom := entries ≠ [] ∧ formatArg = some "atom"
  let tpl := if atom then "atom.xml" else templateName
  let ct := if atom then "application/atom+xml" else defaultContentType
  let sup := if atom then true else false
  if formatArg = some "json" then
    { contentType := "text/javascript", supHeader := sup, template := none,
      jsonBody := some { entries := entries.map (entryToJson host), cursor := cursorVal } }
  else
    { contentType := ct, supHeader := sup, template := some tpl, jsonBody := none }

/-! ### Concrete data used by witnesses and counterexamples -/

def demoEntry : Entry :=
  { author := "ben", title := "Hello, World!", slug := "hello-world", body := "first post",
    published := 1, updated := 1, tags := ["a", "b"], hidden := false }

def demoHidden : Entry :=
  { author := "ben", title := "Secret", slug := "secret", body := "ssh",
    published := 2, updated := 2, tags := ["a"], hidden := true }

def demoStore : Store :=
  [(0, demoEntry), (1, demoHidden)]

/-- A pre-mutation snapshot of the front page sitting in the cache. -/
def stalePage : CachedPage :=
  ([demoEntry], none)

def demoState : BlogState :=
  { store := demoStore, nextKey := 2, cache := [(canonicalHomeKey, stalePage)] }

def demoStateNoCache : BlogState :=
  { store := demoStore, nextKey := 2, cache := [] }

/-- The entity persisted by the create path of `ComposeHandler.post`,
spelled out for use in theorem statements. -/
def composedEntry (author titleArg bodyArg tagsArg s : String) (now : Nat)
    (hiddenArg : Bool) : Entry :=
  { author := author, title := titleArg, slug := s, body := bodyArg,
    published := now, updated := now, tags := parseTags tagsArg, hidden := hiddenArg }

/-- The entity written back by the edit path of `ComposeHandler.post`:
body, title, tags and hidden overwritten, `updated` refreshed by the
put. -/
def editedEntry (e : Entry) (titleArg bodyArg tagsArg : String) (hiddenArg : Bool)
    (now : Nat) : Entry :=
  { e with
    title := titleArg
    body := bodyArg
    tags := parseTags tagsArg
    hidden := hiddenArg
    updated := now }

/-! ### Supporting lemmas -/

theorem mget_mdelete (c : Cache) (k : String) : mget (mdelete c k) k = none := by
  induction c with
  | nil => rfl
  | cons p rest ih =>
    by_cases h : p.1 = k
    · simpa [mdelete, h] using ih
    · simpa [mdelete, mget, h] using ih

theorem uniqueSlugLoop_spec (store : Store) (original : String) :
    ∀ (sfxs : List String) (current s : String),
      uniqueSlugLoop store original current sfxs = some s →
      slugTaken store s = false ∧ (s = current ∨ ∃ x ∈ sfxs, s = original ++ "-" ++ x) := by
  intro sfxs
  induction sfxs with
  | nil =>
    intro current s h
    unfold uniqueSlugLoop at h
    by_cases ht : slugTaken store current = true
    · rw [if_pos ht] at h
      exact absurd h (by simp)
    · rw [if_neg ht] at h
      cases h
      exact ⟨by simpa using ht, Or.inl rfl⟩
  | cons x rest ih =>
    intro current s h
    unfold uniqueSlugLoop at h
    by_cases ht : slugTaken store current = true
    · rw [if_pos ht] at h
      obtain ⟨h1, h2⟩ := ih (original ++ "-" ++ x) s h
      refine ⟨h1, Or.inr ?_⟩
      rcases h2 with h2 | ⟨y, hy, he⟩
      · exact ⟨x, List.mem_cons_self x rest, h2⟩
      · exact ⟨y, List.mem_cons_of_mem x hy, he⟩
    · rw [if_neg ht] at h
      cases h
      exact ⟨by simpa using ht, Or.inl rfl⟩

theorem slugTaken_eq_false_iff (store : Store) (s : String) :
    slugTaken store s = false ↔ ∀ p ∈ store, p.2.slug ≠ s := by
  induction store with
  | nil => simp [slugTaken]
  | cons p rest ih =>
    by_cases h : p.2.slug = s
    · simp [slugTaken, h]
    · simp [slugTaken, h, ih]

theorem lookupEntry_updateStore_self (s : Store) (k : Nat) (e e2 : Entry)
    (h : lookupEntry s k = some e) :
    lookupEntry (updateStore s k e2) k = some e2 := by
  induction s with
  | nil => simp [lookupEntry] at h
  | cons p rest ih =>
    by_cases hk : p.1 = k
    · simp [updateStore, hk, lookupEntry]
    · rw [lookupEntry, if_neg hk] at h
      simpa [updateStore, hk, lookupEntry] using ih h

theorem lookupEntry_updateStore_ne (s : Store) (k k2 : Nat) (e2 : Entry) (h : k2 ≠ k) :
    lookupEntry (updateStore s k e2) k2 = lookupEntry s k2 := by
  induction s with
  | nil => rfl
  | cons p rest ih =>
    by_cases hk : p.1 = k
    · have h1 : ¬ k = k2 := fun he => h he.symm
      have h2 : ¬ p.1 = k2 := fun hc => h1 (hk.symm.trans hc)
      simp only [updateStore, if_pos hk, lookupEntry, if_neg h1, if_neg h2]
    · by_cases hk2 : p.1 = k2
      · simp only [updateStore, if_neg hk, lookupEntry, if_pos hk2]
      · simp only [updateStore, if_neg hk, lookupEntry, if_neg hk2]
        exact ih

theorem fetchFrom_sublist (store : Store) (off lim : Nat) :
    List.Sublist (fetchFrom store off lim) (queryVisibleSorted store) :=
  (List.take_sublist _ _).trans (List.drop_sublist _ _)

theorem sorted_fetchFrom (store : Store) (off lim : Nat) :
    List.Sorted pubGE (fetchFrom store off lim) :=
  List.Pairwise.sublist (fetchFrom_sublist store off lim)
    (List.sorted_insertionSort pubGE (visibleEntries store))

theorem mem_fetchFrom_not_hidden (store : Store) (off lim : Nat) (e : Entry)
    (h : e ∈ fetchFrom store off lim) : e.hidden = false := by
  have h1 : e ∈ queryVisibleSorted store := (fetchFrom_sublist store off lim).mem h
  have h2 : e ∈ visibleEntries store :=
    (List.perm_insertionSort pubGE (visibleEntries store)).mem_iff.mp h1
  have h3 := (List.mem_filter.mp h2).2
  simpa using h3

theorem sorted_listByTag (store : Store) (tag : String) :
    List.Sorted pubGE (listByTag store tag) :=
  List.sorted_insertionSort pubGE _

theorem mem_listByTag_not_hidden (store : Store) (tag : String) (e : Entry)
    (h : e ∈ listByTag store tag) : e.hidden = false := by
  have h2 : e ∈ (store.map Prod.snd).filter (fun e => !e.hidden && e.tags.contains tag) :=
    (List.perm_insertionSort pubGE _).mem_iff.mp h
  have h3 := (List.mem_filter.mp h2).2
  simp only [Bool.and_eq_true, Bool.not_eq_true'] at h3
  exact h3.1

/-! ### Claim C4 -/

/-- Claim C4, as stated, is false: `slugify` itself returns the empty
string on the empty title, not the token `entry`; the fallback happens in
`ComposeHandler.post`. -/
theorem C4_counterexample : ¬ (slugify "" = "entry") := by decide

/-- Claim C4 (amended): for every title whose normalization leaves no word
characters, `slugify` returns the empty string, and the compose handler
then substitutes the literal fallback token `entry`; in particular the
empty and all-whitespace titles both produce the slug candidate
`entry`. -/
theorem C4_slugify_empty_fallback :
    (∀ t : String, slugify t = "" → composeSlugCandidate t = "entry")
    ∧ slugify "" = "" ∧ slugify "   " = ""
    ∧ composeSlugCandidate "" = "entry" ∧ composeSlugCandidate "   " = "entry" := by
  refine ⟨fun t ht => ?_, by decide, by decide, by decide, by decide⟩
  simp [composeSlugCandidate, ht]

/-- Witness for C4 at the all-whitespace title. -/
theorem C4_witness : composeSlugCandidate "   " = "entry" :=
  C4_slugify_empty_fallback.1 "   " (by decide)

/-! ### Claim C2 -/

/-- Claim C2: when the suffix stream consists of 2-character lowercase-hex
draws (the shape of `uuid.uuid4().hex[:2]`), a slug assigned by the
uniqueness loop is never already present in the store (hence distinct
from the slug of every stored entry, so a second compose with the same
title gets a slug distinct from the first), and on a collision the
assigned slug is the candidate followed by a hyphen and one such
2-hex-character suffix. -/
theorem C2_unique_slug (store : Store) (c : String) (sfxs : List String) (s : String)
    (hres : uniqueSlug store c sfxs = some s)
    (hhex : ∀ x ∈ sfxs, isHexPair x = true) :
    slugTaken store s = false
    ∧ (∀ p ∈ store, s ≠ p.2.slug)
    ∧ (slugTaken store c = true → ∃ x, isHexPair x = true ∧ s = c ++ "-" ++ x) := by
  obtain ⟨h1, h2⟩ := uniqueSlugLoop_spec store c sfxs c s hres
  refine ⟨h1, ?_, ?_⟩
  · intro p hp heq
    exact (slugTaken_eq_false_iff store s).mp h1 p hp heq.symm
  · intro htaken
    rcases h2 with rfl | ⟨x, hx, rfl⟩
    · rw [htaken] at h1; cases h1
    · exact ⟨x, hhex x hx, rfl⟩

/-- Witness for C2: a colliding candidate against a store holding
`hello-world` is resolved to `hello-world-ab`, which is free. -/
theorem C2_witness : slugTaken [(0, demoEntry)] "hello-world-ab" = false :=
  (C2_unique_slug [(0, demoEntry)] "hello-world" ["ab"] "hello-world-ab"
    (by decide) (by decide)).1

/-! ### Claim C1 -/

/-- Claim C1, as stated, is false: a successful hide mutation (the entry
is persisted as hidden and the handler redirects) performs no cache
invalidation, so the canonical first-page key still serves the stale
pre-mutation snapshot afterwards. -/
theorem C1_counterexample :
    (hidePost demoState (KeyArg.valid 0) false 3).2 = Response.redirect "/"
    ∧ lookupEntry (hidePost demoState (KeyArg.valid 0) false 3).1.store 0 =
        some { demoEntry with hidden := true, updated := 3 }
    ∧ mget (hidePost demoState (KeyArg.valid 0) false 3).1.cache canonicalHomeKey =
        some stalePage := by decide

/-- Claim C1 (amended): after every successful compose mutation (create
and edit) the canonical first-page cache key `(cursor=None,
limit=default)` is explicitly invalidated; the hide/unhide handler
performs no invalidation at all and leaves the cache untouched, so the
cached first page may remain stale after a hide. -/
theorem C1_cache_invalidation (st : BlogState) (author titleArg bodyArg tagsArg : String)
    (hiddenArg : Bool) (sfxs : List String) (fetchOk : Nat → Bool) (now k : Nat) (e : Entry)
    (s : String) (key2 : KeyArg) (unhideArg : Bool)
    (hedit : lookupEntry st.store k = some e)
    (hcreate : uniqueSlug st.store (composeSlugCandidate titleArg) sfxs = some s) :
    mget (composePost st author (some (KeyArg.valid k)) titleArg bodyArg tagsArg hiddenArg
        sfxs fetchOk now).state.cache canonicalHomeKey = none
    ∧ mget (composePost st author none titleArg bodyArg tagsArg hiddenArg
        sfxs fetchOk now).state.cache canonicalHomeKey = none
    ∧ (hidePost st key2 unhideArg now).1.cache = st.cache := by
  refine ⟨?_, ?_, ?_⟩
  · simp only [composePost, hedit]
    exact mget_mdelete _ _
  · simp only [composePost, hcreate]
    exact mget_mdelete _ _
  · cases key2 with
    | malformed => rfl
    | valid k3 =>
      cases hl : lookupEntry st.store k3 <;> simp [hidePost, hl]

/-- Witness for C1: after an edit of the stored entry the canonical home
key is gone from the cache. -/
theorem C1_witness :
    mget (composePost demoState "ben" (some (KeyArg.valid 0)) "New post" "b" "" false
        [] (fun _ => true) 3).state.cache canonicalHomeKey = none :=
  (C1_cache_invalidation demoState "ben" "New post" "b" "" false [] (fun _ => true) 3 0
    demoEntry "new-post" (KeyArg.valid 0) false (by decide) (by decide)).1

/-! ### Claim C3 -/

/-- Claim C3, as stated, is false: a compose POST whose key raises
`db.BadKeyError` is answered with a redirect to `/`, not with HTTP 404,
and the `/e/<slug>` handler answers with a redirect to `/<slug>` rather
than a direct 404. -/
theorem C3_counterexample :
    (composePost demoState "ben" (some KeyArg.malformed) "t" "b" "" false []
        (fun _ => true) 4).response = Response.redirect "/"
    ∧ Response.redirect "/" ≠ Response.httpError 404
    ∧ oldEntryGet "unknown-slug" = Response.redirect "/unknown-slug" := by decide

/-- Claim C3 (amended): delete and hide respond 404 on a key that raises
`db.BadKeyError`; `GET /e/<slug>` responds with a redirect to `/<slug>`,
where an unknown non-empty slug is answered 404 by the catch-all handler;
compose POST with such a key responds with a redirect to `/` instead of a
404. -/
theorem C3_not_found (st : BlogState) (slug author titleArg bodyArg tagsArg : String)
    (hiddenArg unhideArg : Bool) (sfxs : List String) (fetchOk : Nat → Bool) (now : Nat)
    (hslug : findBySlug st.store slug = none) (hne : slug ≠ "") :
    deletePost st KeyArg.malformed = (st, Response.httpError 404)
    ∧ hidePost st KeyArg.malformed unhideArg now = (st, Response.httpError 404)
    ∧ oldEntryGet slug = Response.redirect ("/" ++ slug)
    ∧ catchAllGet st.store ("/" ++ slug) = Response.httpError 404
    ∧ (composePost st author (some KeyArg.malformed) titleArg bodyArg tagsArg hiddenArg
        sfxs fetchOk now).response = Response.redirect "/" := by
  refine ⟨rfl, rfl, rfl, ?_, rfl⟩
  unfold catchAllGet
  have h1 : String.mk (("/" ++ slug).data.drop 1) = slug := rfl
  rw [h1]
  simp only [if_neg hne, hslug]

/-- Witness for C3 at a slug absent from the demo store. -/
theorem C3_witness :
    catchAllGet demoState.store ("/" ++ "unknown-slug") = Response.httpError 404 :=
  (C3_not_found demoState "unknown-slug" "ben" "t" "b" "" false false [] (fun _ => true) 4
    (by decide) (by decide)).2.2.2.1

/-! ### Claim C5 -/

/-- Claim C5: every public listing query (the home and archive fetches at
any cursor offset, and the tag query) contains no hidden entry and is
ordered by published timestamp descending. -/
theorem C5_listings (store : Store) (off lim : Nat) (tag : String) (e1 e2 : Entry)
    (h1 : e1 ∈ fetchFrom store off lim) (h2 : e2 ∈ listByTag store tag) :
    e1.hidden = false ∧ e2.hidden = false
    ∧ List.Sorted pubGE (fetchFrom store off lim)
    ∧ List.Sorted pubGE (listByTag store tag) :=
  ⟨mem_fetchFrom_not_hidden store off lim e1 h1, mem_listByTag_not_hidden store tag e2 h2,
   sorted_fetchFrom store off lim, sorted_listByTag store tag⟩

/-- Witness for C5: the visible demo entry appears on the first home page
of the demo store and is not hidden. -/
theorem C5_witness : demoEntry.hidden = false :=
  (C5_listings demoStore 0 defaultNumHome "a" demoEntry demoEntry
    (by decide) (by decide)).1

/-! ### Claim C6 -/

/-- Claim C6: a listing request carrying an undecodable cursor does not
fail; the cursor is treated as absent and the listing restarts from the
beginning of the ordering, for the archive handler and for the home
handler (on a cache miss both for the raw-cursor key and the no-cursor
key). -/
theorem C6_invalid_cursor (st : BlogState) (c : String)
    (hbad : parseCursor c = none)
    (hmiss : mget st.cache (homeCacheKey (some c) defaultNumHome) = none)
    (hmiss0 : mget st.cache (homeCacheKey none defaultNumHome) = none) :
    archiveGet st.store (some c) = archiveGet st.store none
    ∧ (homeGet st (some c)).entries = fetchFrom st.store 0 defaultNumHome
    ∧ (homeGet st (some c)).entries = (homeGet st none).entries := by
  refine ⟨?_, ?_, ?_⟩
  · simp [archiveGet, appliedOffset, hbad]
  · simp [homeGet, hmiss, appliedOffset, hbad]
  · simp [homeGet, hmiss, hmiss0, appliedOffset, hbad]

/-- Witness for C6 at the undecodable cursor token `zzz`. -/
theorem C6_witness :
    archiveGet demoStateNoCache.store (some "zzz") = archiveGet demoStateNoCache.store none :=
  (C6_invalid_cursor demoStateNoCache "zzz" (by decide) rfl rfl).1

/-! ### Claim C7 -/

/-- Claim C7: the ping runs exactly on a successful compose create of a
non-hidden entry (all four endpoints attempted, in order), never on an
edit and never for a hidden entry; and the individual fetch outcomes are
swallowed: the resulting state and response do not depend on them, and
the new entry is persisted regardless. -/
theorem C7_ping (st : BlogState) (author titleArg bodyArg tagsArg : String)
    (sfxs : List String) (o o2 : Nat → Bool) (now : Nat) (s : String) (key : KeyArg)
    (hd : Bool)
    (hcreate : uniqueSlug st.store (composeSlugCandidate titleArg) sfxs = some s) :
    (composePost st author none titleArg bodyArg tagsArg false sfxs o now).pings = ping o
    ∧ (ping o).length = 4
    ∧ (composePost st author none titleArg bodyArg tagsArg true sfxs o now).pings = []
    ∧ (composePost st author (some key) titleArg bodyArg tagsArg hd sfxs o now).pings = []
    ∧ (composePost st author none titleArg bodyArg tagsArg false sfxs o now).state
        = (composePost st author none titleArg bodyArg tagsArg false sfxs o2 now).state
    ∧ (composePost st author none titleArg bodyArg tagsArg false sfxs o now).response
        = (composePost st author none titleArg bodyArg tagsArg false sfxs o2 now).response
    ∧ (st.nextKey, composedEntry author titleArg bodyArg tagsArg s now false)
        ∈ (composePost st author none titleArg bodyArg tagsArg false sfxs o now).state.store := by
  refine ⟨?_, rfl, ?_, ?_, ?_, ?_, ?_⟩
  · simp [composePost, hcreate]
  · simp [composePost, hcreate]
  · cases key with
    | malformed => rfl
    | valid k => cases hl : lookupEntry st.store k <;> simp [composePost, hl]
  · simp [composePost, hcreate]
  · simp [composePost, hcreate]
  · simp [composePost, hcreate, composedEntry, List.mem_append]

/-- Witness for C7: a concrete non-hidden create performs the four
pings. -/
theorem C7_witness :
    (composePost demoState "ben" none "New post" "b" "" false [] (fun _ => true) 9).pings
      = ping (fun _ => true) :=
  (C7_ping demoState "ben" "New post" "b" "" [] (fun _ => true) (fun _ => false) 9
    "new-post" KeyArg.malformed false (by decide)).1

/-! ### Claim C8 -/

/-- Claim C8: for every admin-gated route, an unauthenticated GET is
answered with a redirect to the login URL, an unauthenticated POST with
HTTP 403, any authenticated non-administrator request with HTTP 403
(state untouched — the entry remains), and the wrapped handler body runs
exactly for an authenticated administrator. -/
theorem C8_admin_gate (st : BlogState) (uri name : String) (adm : Bool)
    (user : Option String) (m : Method) (act : Unit → BlogState × Response) (key : KeyArg) :
    administrator none adm Method.GET uri = AuthResult.redirectLogin (createLoginUrl uri)
    ∧ administrator none adm Method.POST uri = AuthResult.forbidden
    ∧ administrator (some name) false m uri = AuthResult.forbidden
    ∧ (administrator user adm m uri = AuthResult.allowed ↔ user ≠ none ∧ adm = true)
    ∧ runGated none adm Method.GET uri st act = (st, Response.redirect (createLoginUrl uri))
    ∧ runGated none adm Method.POST uri st act = (st, Response.httpError 403)
    ∧ runGated (some name) false m uri st act = (st, Response.httpError 403)
    ∧ runGated (some name) true m uri st act = act ()
    ∧ runGated (some name) false Method.POST "/delete" st (fun _ => deletePost st key)
        = (st, Response.httpError 403) := by
  refine ⟨rfl, rfl, rfl, ?_, rfl, rfl, rfl, rfl, rfl⟩
  constructor
  · intro h
    cases user with
    | none => cases m <;> simp [administrator] at h
    | some u =>
      refine ⟨fun hc => Option.noConfusion hc, ?_⟩
      cases adm with
      | false => simp [administrator] at h
      | true => rfl
  · rintro ⟨h1, h2⟩
    cases user with
    | none => exact absurd rfl h1
    | some u => subst h2; rfl

/-- Witness for C8: a non-administrator POST to the delete route is
refused with 403 and the state is unchanged. -/
theorem C8_witness :
    runGated (some "eve") false Method.POST "/delete" demoState
        (fun _ => deletePost demoState (KeyArg.valid 0))
      = (demoState, Response.httpError 403) :=
  (C8_admin_gate demoState "/delete" "eve" false (some "eve") Method.POST
    (fun _ => deletePost demoState (KeyArg.valid 0)) (KeyArg.valid 0)).2.2.2.2.2.2.2.2

/-! ### Claim C9 -/

/-- Claim C9: editing an existing entry through compose POST with a valid
key overwrites exactly title, body, tags, hidden and the updated
timestamp; the slug, published timestamp and author are unchanged, and
every other stored entity is untouched. -/
theorem C9_edit_frame (st : BlogState) (author titleArg bodyArg tagsArg : String)
    (hiddenArg : Bool) (sfxs : List String) (fetchOk : Nat → Bool) (now k k2 : Nat) (e : Entry)
    (he : lookupEntry st.store k = some e) :
    lookupEntry (composePost st author (some (KeyArg.valid k)) titleArg bodyArg tagsArg
        hiddenArg sfxs fetchOk now).state.store k
      = some (editedEntry e titleArg bodyArg tagsArg hiddenArg now)
    ∧ (editedEntry e titleArg bodyArg tagsArg hiddenArg now).slug = e.slug
    ∧ (editedEntry e titleArg bodyArg tagsArg hiddenArg now).published = e.published
    ∧ (editedEntry e titleArg bodyArg tagsArg hiddenArg now).author = e.author
    ∧ (k2 ≠ k → lookupEntry (composePost st author (some (KeyArg.valid k)) titleArg bodyArg
          tagsArg hiddenArg sfxs fetchOk now).state.store k2 = lookupEntry st.store k2) := by
  refine ⟨?_, rfl, rfl, rfl, ?_⟩
  · simp only [composePost, he, editedEntry]
    exact lookupEntry_updateStore_self st.store k e _ he
  · intro hne
    simp only [composePost, he]
    exact lookupEntry_updateStore_ne st.store k k2 _ hne

/-- Witness for C9: a concrete edit of the stored demo entry keeps its
slug and published timestamp. -/
theorem C9_witness :
    lookupEntry (composePost demoState "ben" (some (KeyArg.valid 0)) "T2" "B2" "c" true
        [] (fun _ => true) 7).state.store 0
      = some (editedEntry demoEntry "T2" "B2" "c" true 7) :=
  (C9_edit_frame demoState "ben" "T2" "B2" "c" true [] (fun _ => true) 7 0 1 demoEntry
    (by decide)).1

/-! ### Claim C10 -/

/-- Claim C10: with `format=atom` and an empty entry list, `render` falls
back to the ordinary HTML template with the default content type and no
X-SUP-ID header; with a non-empty list it produces the Atom feed; with
`format=json` it writes a JSON body (an empty entries array included)
with the `text/javascript` content type. -/
theorem C10_render (tpl host : String) (cur : Option String) :
    render tpl (some "atom") host [] cur
      = { contentType := defaultContentType, supHeader := false, template := some tpl,
          jsonBody := none }
    ∧ (∀ (e : Entry) (es : List Entry),
        render tpl (some "atom") host (e :: es) cur
          = { contentType := "application/atom+xml", supHeader := true,
              template := some "atom.xml", jsonBody := none })
    ∧ render tpl (some "json") host [] cur
      = { contentType := "text/javascript", supHeader := false, template := none,
          jsonBody := some { entries := [], cursor := cur } } :=
  ⟨rfl, fun _ _ => rfl, rfl⟩

/-- Witness for C10 at the home template with no cursor. -/
theorem C10_witness :
    render "home.html" (some "atom") "example.com" [] none
      = { contentType := defaultContentType, supHeader := false,
          template := some "home.html", jsonBody := none } :=
  (C10_render "home.html" "example.com" none).1


